import Mathlib

/-!
Shallow embedding of the Interactive Brokers flex-query client
(`app.py`): the request-parameter construction of `send_flex_request`
(lines 42-63), the acknowledgement decoder `parse_flex_response`
(lines 76-98), and the statement download `download_flex_statement`
(lines 107-122), together with theorems settling the frozen claims.

Python exceptions are modelled as an explicit outcome type carrying the
exception class and message; the XML body handed to the decoder is
modelled as either an unparseable text (with the parser's error message)
or a well-formed document given by its list of top-level child elements,
each a tag together with its optional text (ElementTree yields `None`
for the text of an empty element).
-/

namespace FlexQuery

/-- A top-level child element of the parsed acknowledgement document:
its tag and its text (`none` models ElementTree's `None` text,
which is what an empty element produces). -/
structure XmlChild where
  tag : String
  text : Option String
deriving DecidableEq, Repr

/-- The body handed to `parse_flex_response`: either text that
`ET.fromstring` rejects (carrying the raw text and the `ParseError`
message the parser produced for it), or a well-formed document given
by its top-level children in order. -/
inductive XmlBody where
  | unparseable (raw : String) (err : String)
  | wellFormed (children : List XmlChild)
deriving DecidableEq, Repr

/-- Python exception classes that appear in `parse_flex_response`:
`ValueError`, `RuntimeError`, and `xml.etree.ElementTree.ParseError`
(the latter is caught on line 80 and must never escape). -/
inductive ExcClass where
  | valueError
  | runtimeError
  | parseError
deriving DecidableEq, Repr

/-- Outcome of a Python call: a normal return value or a raised
exception with its class and message. -/
inductive PyResult where
  | ret (value : String)
  | raises (exc : ExcClass) (msg : String)
deriving DecidableEq, Repr

/-- Python f-string interpolation of an optional string:
`None` prints as the four characters `None`, a string prints as itself
(used on line 93, `f"... status: {status}"` where `status` may be `None`). -/
def pyStr : Option String → String
  | Option.none => "None"
  | some s => s

/-- The scanning loop of `parse_flex_response` (lines 86-90): walk the
top-level children in order, remembering the text of the last `Status`
and the last `ReferenceCode` element seen, starting from the given
values of the two variables (both `None` on lines 83-84). -/
def scanChildren : List XmlChild → Option String → Option String → Option String × Option String
  | [], status, ref => (status, ref)
  | c :: rest, status, ref =>
      if c.tag = "Status" then scanChildren rest c.text ref
      else if c.tag = "ReferenceCode" then scanChildren rest status c.text
      else scanChildren rest status ref

/-- The classification tail of `parse_flex_response` (lines 92-98):
a status other than `Success` (including the absent `None`) raises
`RuntimeError`; a falsy reference code (`None` or the empty string)
raises `ValueError`; otherwise the reference code is returned. -/
def classifyScan : Option String × Option String → PyResult
  | (status, ref) =>
      if status = some "Success" then
        match ref with
        | Option.none => PyResult.raises ExcClass.valueError "No reference code found in response"
        | some r =>
            if r = "" then PyResult.raises ExcClass.valueError "No reference code found in response"
            else PyResult.ret r
      else
        PyResult.raises ExcClass.runtimeError ("Flex request failed with status: " ++ pyStr status)

/-- Model of `parse_flex_response` (lines 76-98): a body the XML parser
rejects raises `ValueError` whose message wraps the parser's own error
message (line 81); a well-formed body is scanned for `Status` and
`ReferenceCode` and classified. -/
def parse_flex_response : XmlBody → PyResult
  | XmlBody.unparseable _raw err =>
      PyResult.raises ExcClass.valueError ("Invalid XML response: " ++ err)
  | XmlBody.wellFormed children =>
      classifyScan (scanChildren children Option.none Option.none)

/-- Text of the last child with the given tag, or the default when no
child carries the tag: the value a Python variable holds after the
scanning loop. -/
def lastText (tag : String) : List XmlChild → Option String → Option String
  | [], dflt => dflt
  | c :: rest, dflt => if c.tag = tag then lastText tag rest c.text else lastText tag rest dflt

/-- Decimal digit characters of `n`, most significant first, prepended
to `acc`; fuel-driven version of repeated division by ten (any fuel of
at least `n + 1` suffices). Models Python's decimal rendering of a
non-negative integer. -/
def natDigitsCore : Nat → Nat → List Char → List Char
  | 0, _, acc => acc
  | fuel + 1, n, acc =>
      let d := Char.ofNat (48 + n % 10)
      if n < 10 then d :: acc
      else natDigitsCore fuel (n / 10) (d :: acc)

/-- Decimal rendering of a natural number, the model of Python's
`str(n)` / unpadded `%Y` on a non-negative value. -/
def natDecimal (n : Nat) : String := String.mk (natDigitsCore (n + 1) n [])

/-- Two-digit zero-padded decimal rendering: Python's `%02d`, the output
shape of `strftime`'s `%m` and `%d` for in-range values. -/
def pad2 (n : Nat) : String := if n < 10 then "0" ++ natDecimal n else natDecimal n

/-- Four-digit zero-padded decimal rendering: Python's `%04d`, the year
field of an ISO `YYYY-MM-DD` date string. -/
def pad4 (n : Nat) : String :=
  if n < 10 then "000" ++ natDecimal n
  else if n < 100 then "00" ++ natDecimal n
  else if n < 1000 then "0" ++ natDecimal n
  else natDecimal n

/-- Model of Python's `s.replace("-", "")` (lines 54 and 62): every
occurrence of the dash character is removed, all other characters stay
in order. -/
def removeDashes (s : String) : String := String.mk (s.data.filter (fun c => c != '-'))

/-- A Python `datetime.date`: a calendar date with no time component.
`datetime.datetime` behaves identically under `strftime("%Y%m%d")`. -/
structure PyDate where
  year : Nat
  month : Nat
  day : Nat
deriving DecidableEq, Repr

/-- Validity bounds of a Python `date`: `MINYEAR = 1`, `MAXYEAR = 9999`,
months one to twelve, days one to thirty-one. -/
def ValidDate (d : PyDate) : Prop :=
  1 ≤ d.year ∧ d.year ≤ 9999 ∧ 1 ≤ d.month ∧ d.month ≤ 12 ∧ 1 ≤ d.day ∧ d.day ≤ 31

instance (d : PyDate) : Decidable (ValidDate d) := by unfold ValidDate; infer_instance

/-- Model of `d.strftime("%Y%m%d")` (lines 51 and 59): the year as an
unpadded decimal (glibc's `%Y`), month and day zero-padded to two
digits. -/
def strftimeYmd (d : PyDate) : String := natDecimal d.year ++ pad2 d.month ++ pad2 d.day

/-- The `YYYY-MM-DD` string form of a calendar date, as produced by
`date.isoformat()`: four-digit zero-padded year, two-digit month and
day, separated by dashes. This is the spec's "corresponding string"
for a date object. -/
def isoDateString (d : PyDate) : String :=
  pad4 d.year ++ "-" ++ pad2 d.month ++ "-" ++ pad2 d.day

/-- A `start_date`/`end_date` argument of `send_flex_request`: Python's
`None`, a string, or a `date` object. -/
inductive DateArg where
  | none
  | str (s : String)
  | date (d : PyDate)
deriving DecidableEq, Repr

/-- The date-normalisation and truthiness guard of `send_flex_request`
(lines 49-63): `None` and the empty string are falsy, so the parameter
is omitted; a date object is rendered with `strftime("%Y%m%d")`; a
non-empty string has its dashes removed. -/
def dateParam : DateArg → Option String
  | DateArg.none => Option.none
  | DateArg.str s => if s = "" then Option.none else some (removeDashes s)
  | DateArg.date d => some (strftimeYmd d)

/-- The configuration dictionary built by `load_config` (lines 18-31). -/
structure Config where
  token : String
  query_id : String
  version : Nat
  base_url : String
deriving DecidableEq, Repr

/-- Query parameters of a request to the flex web service: `t`, `q`,
`v` always present, `StartDate`/`EndDate` present only when set
(`none` models absence of the dictionary key). -/
structure ReqParams where
  t : String
  q : String
  v : Nat
  StartDate : Option String
  EndDate : Option String
deriving DecidableEq, Repr

/-- The `send_params` dictionary built by `send_flex_request`
(lines 42-63): credentials and version, plus the optional normalised
date range. -/
def send_params (config : Config) (start_date end_date : DateArg) : ReqParams :=
  { t := config.token
    q := config.query_id
    v := config.version
    StartDate := dateParam start_date
    EndDate := dateParam end_date }

/-- The `receive_params` dictionary built by `download_flex_statement`
(lines 109-113): the reference code stands in the `q` slot, no date
keys exist. -/
def receive_params (config : Config) (reference_code : String) : ReqParams :=
  { t := config.token
    q := reference_code
    v := config.version
    StartDate := Option.none
    EndDate := Option.none }

/-- Outcome of `requests.get(...)` followed by `raise_for_status()`:
either a 2xx response carrying its body bytes, or a
`requests.RequestException` (connection error, timeout, or non-2xx
status). -/
inductive HttpOutcome where
  | success (body : List Nat)
  | requestException (msg : String)
deriving DecidableEq, Repr

/-- Model of `download_flex_statement` (lines 107-122), with the HTTP
layer abstracted as a function from request parameters to an outcome:
on success the body bytes are returned verbatim; a `RequestException`
is re-raised as `RuntimeError` (modelled as `Except.error`). -/
def download_flex_statement (http : ReqParams → HttpOutcome) (config : Config)
    (reference_code : String) : Except String (List Nat) :=
  match http (receive_params config reference_code) with
  | HttpOutcome.success body => Except.ok body
  | HttpOutcome.requestException e =>
      Except.error ("Failed to download flex statement: " ++ e)

/-- A concrete configuration used to instantiate universally quantified
theorems on explicit inputs. -/
def demoConfig : Config :=
  { token := "TOK", query_id := "QID", version := 3
    base_url := "https://ndcdyn.interactivebrokers.com/AccountManagement/FlexWebService" }

theorem scanChildren_eq_lastText (l : List XmlChild) :
    ∀ s r, scanChildren l s r = (lastText "Status" l s, lastText "ReferenceCode" l r) := by
  induction l with
  | nil => intro s r; rfl
  | cons c rest ih =>
      intro s r
      by_cases hs : c.tag = "Status"
      · have hr : c.tag ≠ "ReferenceCode" := by rw [hs]; decide
        simp [scanChildren, lastText, hs, hr, ih]
      · by_cases hr : c.tag = "ReferenceCode"
        · simp [scanChildren, lastText, hs, hr, ih]
        · simp [scanChildren, lastText, hs, hr, ih]

theorem lastText_of_filter_nil (tag : String) (l : List XmlChild) :
    ∀ dflt, l.filter (fun c => c.tag = tag) = [] → lastText tag l dflt = dflt := by
  induction l with
  | nil => intro dflt _; rfl
  | cons c rest ih =>
      intro dflt h
      by_cases hc : c.tag = tag
      · exfalso
        rw [List.filter_cons_of_pos (by simpa using hc)] at h
        exact List.cons_ne_nil _ _ h
      · rw [List.filter_cons_of_neg (by simpa using hc)] at h
        simpa [lastText, hc] using ih dflt h

theorem lastText_of_filter_singleton (tag : String) (c0 : XmlChild) (l : List XmlChild) :
    ∀ dflt, l.filter (fun c => c.tag = tag) = [c0] → lastText tag l dflt = c0.text := by
  induction l with
  | nil => intro dflt h; simp [List.filter] at h
  | cons c rest ih =>
      intro dflt h
      by_cases hc : c.tag = tag
      · rw [List.filter_cons_of_pos (by simpa using hc)] at h
        have hc0 : c = c0 := (List.cons_eq_cons.mp h).1
        have hrest : rest.filter (fun c => c.tag = tag) = [] := (List.cons_eq_cons.mp h).2
        rw [← hc0]
        simpa [lastText, hc] using lastText_of_filter_nil tag rest c.text hrest
      · rw [List.filter_cons_of_neg (by simpa using hc)] at h
        simpa [lastText, hc] using ih dflt h

/-- A convenient restatement of the decoder on well-formed documents in
terms of the last `Status` and `ReferenceCode` texts. -/
theorem parse_wellFormed (children : List XmlChild) :
    parse_flex_response (XmlBody.wellFormed children)
      = classifyScan (lastText "Status" children Option.none,
                      lastText "ReferenceCode" children Option.none) := by
  show classifyScan (scanChildren children Option.none Option.none) = _
  rw [scanChildren_eq_lastText]

theorem digitChar_ne_dash (k : Nat) (hk : k < 10) : (Char.ofNat (48 + k) != '-') = true := by
  interval_cases k <;> decide

theorem natDigitsCore_filter (p : Char → Bool)
    (hp : ∀ k, k < 10 → p (Char.ofNat (48 + k)) = true) :
    ∀ fuel n acc, (natDigitsCore fuel n acc).filter p = natDigitsCore fuel n (acc.filter p) := by
  intro fuel
  induction fuel with
  | zero => intro n acc; rfl
  | succ f ih =>
      intro n acc
      have hd : p (Char.ofNat (48 + n % 10)) = true := hp (n % 10) (Nat.mod_lt n (by omega))
      by_cases h : n < 10
      · simp only [natDigitsCore, if_pos h]
        rw [List.filter_cons_of_pos hd]
      · simp only [natDigitsCore, if_neg h]
        rw [ih (n / 10) (Char.ofNat (48 + n % 10) :: acc), List.filter_cons_of_pos hd]

theorem removeDashes_natDecimal (n : Nat) : removeDashes (natDecimal n) = natDecimal n := by
  unfold removeDashes natDecimal
  rw [show (String.mk (natDigitsCore (n + 1) n [])).data = natDigitsCore (n + 1) n [] from rfl,
      natDigitsCore_filter _ digitChar_ne_dash (n + 1) n []]
  rfl

theorem removeDashes_append (a b : String) :
    removeDashes (a ++ b) = removeDashes a ++ removeDashes b := by
  apply String.ext
  show ((a ++ b).data.filter _) = _
  rw [String.data_append]
  rw [List.filter_append]
  rfl

theorem removeDashes_pad2 (n : Nat) : removeDashes (pad2 n) = pad2 n := by
  unfold pad2
  by_cases h : n < 10
  · rw [if_pos h, removeDashes_append, removeDashes_natDecimal,
        show removeDashes "0" = "0" from by decide]
  · rw [if_neg h, removeDashes_natDecimal]

theorem removeDashes_pad4_of_ge (n : Nat) (h : 1000 ≤ n) :
    removeDashes (pad4 n) = natDecimal n := by
  unfold pad4
  rw [if_neg (by omega), if_neg (by omega), if_neg (by omega), removeDashes_natDecimal]

theorem removeDashes_iso (d : PyDate) (h : 1000 ≤ d.year) :
    removeDashes (isoDateString d) = strftimeYmd d := by
  unfold isoDateString strftimeYmd
  rw [removeDashes_append, removeDashes_append, removeDashes_append, removeDashes_append,
      removeDashes_pad4_of_ge d.year h, removeDashes_pad2, removeDashes_pad2,
      show removeDashes "-" = "" from by decide]
  apply String.ext
  simp [String.data_append]

theorem isoDateString_ne_empty (d : PyDate) : isoDateString d ≠ "" := by
  intro h
  have hd := congrArg String.data h
  unfold isoDateString at hd
  rw [String.data_append, String.data_append, String.data_append, String.data_append,
      show ("-" : String).data = ['-'] from rfl,
      show ("" : String).data = [] from rfl] at hd
  simp at hd

end FlexQuery

open FlexQuery

/-- C1: a well-formed acknowledgement whose top-level children hold one
`Status` element with text `Success` and one `ReferenceCode` element with
non-empty text — in either order, and alongside arbitrarily many children
with other tags — is decoded to the returned reference code. -/
theorem parse_accepts_success_with_reference
    (children : List XmlChild) (rc : String)
    (hs : children.filter (fun c => c.tag = "Status") = [⟨"Status", some "Success"⟩])
    (hr : children.filter (fun c => c.tag = "ReferenceCode") = [⟨"ReferenceCode", some rc⟩])
    (hrc : rc ≠ "") :
    parse_flex_response (XmlBody.wellFormed children) = PyResult.ret rc := by
  rw [parse_wellFormed,
      lastText_of_filter_singleton "Status" ⟨"Status", some "Success"⟩ children Option.none hs,
      lastText_of_filter_singleton "ReferenceCode" ⟨"ReferenceCode", some rc⟩ children Option.none hr]
  simp [classifyScan, hrc]

/-- C1 witness: the reference code `ABC123` is extracted even when
`ReferenceCode` precedes `Status` and an unrecognized element is present. -/
theorem parse_accepts_success_with_reference_witness :
    parse_flex_response (XmlBody.wellFormed
      [⟨"Extra", some "x"⟩, ⟨"ReferenceCode", some "ABC123"⟩, ⟨"Status", some "Success"⟩])
      = PyResult.ret "ABC123" :=
  parse_accepts_success_with_reference
    [⟨"Extra", some "x"⟩, ⟨"ReferenceCode", some "ABC123"⟩, ⟨"Status", some "Success"⟩]
    "ABC123" (by decide) (by decide) (by decide)

/-- C5: a well-formed acknowledgement whose single `Status` element has
text other than `Success` is decoded to a `RuntimeError` carrying that
status string verbatim, whatever the other children hold. -/
theorem parse_rejects_non_success_status
    (children : List XmlChild) (s : String)
    (hs : children.filter (fun c => c.tag = "Status") = [⟨"Status", some s⟩])
    (hns : s ≠ "Success") :
    parse_flex_response (XmlBody.wellFormed children)
      = PyResult.raises ExcClass.runtimeError ("Flex request failed with status: " ++ s) := by
  rw [parse_wellFormed,
      lastText_of_filter_singleton "Status" ⟨"Status", some s⟩ children Option.none hs]
  simp [classifyScan, hns, pyStr]

/-- C5 witness: status `Warn` is reported verbatim in the `RuntimeError`. -/
theorem parse_rejects_non_success_status_witness :
    parse_flex_response (XmlBody.wellFormed
      [⟨"Status", some "Warn"⟩, ⟨"ReferenceCode", some "ABC123"⟩])
      = PyResult.raises ExcClass.runtimeError "Flex request failed with status: Warn" :=
  parse_rejects_non_success_status
    [⟨"Status", some "Warn"⟩, ⟨"ReferenceCode", some "ABC123"⟩] "Warn"
    (by decide) (by decide)

/-- C4: a well-formed acknowledgement with `Status` text `Success` but
whose `ReferenceCode` element is absent, has `None` text (what the parser
yields for an empty element), or has empty text, is decoded to the
`ValueError` for a missing reference code; this outcome is never a
returned reference code, and it differs from every `RuntimeError` raised
for a non-`Success` status. -/
theorem parse_success_without_reference_fails
    (children : List XmlChild)
    (hs : children.filter (fun c => c.tag = "Status") = [⟨"Status", some "Success"⟩])
    (hr : children.filter (fun c => c.tag = "ReferenceCode") = []
          ∨ children.filter (fun c => c.tag = "ReferenceCode") = [⟨"ReferenceCode", Option.none⟩]
          ∨ children.filter (fun c => c.tag = "ReferenceCode") = [⟨"ReferenceCode", some ""⟩]) :
    parse_flex_response (XmlBody.wellFormed children)
      = PyResult.raises ExcClass.valueError "No reference code found in response"
    ∧ (∀ r, parse_flex_response (XmlBody.wellFormed children) ≠ PyResult.ret r)
    ∧ (∀ m, parse_flex_response (XmlBody.wellFormed children)
              ≠ PyResult.raises ExcClass.runtimeError m) := by
  have hmain : parse_flex_response (XmlBody.wellFormed children)
      = PyResult.raises ExcClass.valueError "No reference code found in response" := by
    rw [parse_wellFormed,
        lastText_of_filter_singleton "Status" ⟨"Status", some "Success"⟩ children Option.none hs]
    rcases hr with h | h | h
    · rw [lastText_of_filter_nil "ReferenceCode" children Option.none h]
      simp [classifyScan]
    · rw [lastText_of_filter_singleton "ReferenceCode" ⟨"ReferenceCode", Option.none⟩
            children Option.none h]
      simp [classifyScan]
    · rw [lastText_of_filter_singleton "ReferenceCode" ⟨"ReferenceCode", some ""⟩
            children Option.none h]
      simp [classifyScan]
  refine ⟨hmain, ?_, ?_⟩
  · intro r h
    rw [hmain] at h
    exact PyResult.noConfusion h
  · intro m h
    rw [hmain] at h
    exact ExcClass.noConfusion (PyResult.raises.inj h).1

/-- C4 witness: `Status=Success` with an empty `ReferenceCode` element
raises the missing-reference-code `ValueError`. -/
theorem parse_success_without_reference_fails_witness :
    parse_flex_response (XmlBody.wellFormed
      [⟨"Status", some "Success"⟩, ⟨"ReferenceCode", Option.none⟩])
      = PyResult.raises ExcClass.valueError "No reference code found in response" :=
  (parse_success_without_reference_fails
    [⟨"Status", some "Success"⟩, ⟨"ReferenceCode", Option.none⟩]
    (by decide) (Or.inr (Or.inl (by decide)))).1

/-- C10: a well-formed acknowledgement with no `Status` element, or whose
single `Status` element is empty (text `None`), is decoded by the
rejection branch with status text `None` — a `RuntimeError` whose message
interpolates `None` — and never by the `ValueError` parse-failure branch. -/
theorem parse_missing_status_is_rejection
    (children : List XmlChild)
    (hs : children.filter (fun c => c.tag = "Status") = []
          ∨ children.filter (fun c => c.tag = "Status") = [⟨"Status", Option.none⟩]) :
    parse_flex_response (XmlBody.wellFormed children)
      = PyResult.raises ExcClass.runtimeError "Flex request failed with status: None"
    ∧ (∀ m, parse_flex_response (XmlBody.wellFormed children)
              ≠ PyResult.raises ExcClass.valueError m) := by
  have hmain : parse_flex_response (XmlBody.wellFormed children)
      = PyResult.raises ExcClass.runtimeError "Flex request failed with status: None" := by
    rw [parse_wellFormed]
    rcases hs with h | h
    · rw [lastText_of_filter_nil "Status" children Option.none h]
      simp [classifyScan, pyStr]
    · rw [lastText_of_filter_singleton "Status" ⟨"Status", Option.none⟩ children Option.none h]
      simp [classifyScan, pyStr]
  refine ⟨hmain, ?_⟩
  intro m h
  rw [hmain] at h
  exact ExcClass.noConfusion (PyResult.raises.inj h).1

theorem classifyScan_ne_parseError (sr : Option String × Option String) (m : String) :
    classifyScan sr ≠ PyResult.raises ExcClass.parseError m := by
  obtain ⟨status, ref⟩ := sr
  by_cases hs : status = some "Success"
  · cases ref with
    | none => simp [classifyScan, hs]
    | some r => by_cases hr : r = "" <;> simp [classifyScan, hs, hr]
  · simp [classifyScan, hs]

/-- C6 counterexample: on an unparseable body the decoder's `ValueError`
message wraps the parser's error detail; it does not carry the raw body
— the raw body is not a substring of the message, and two distinct raw
bodies that provoke the same parser error yield identical results. -/
theorem parse_malformed_carries_detail_not_body :
    parse_flex_response (XmlBody.unparseable "RAWBODY" "syntax error: line 1, column 0")
      = PyResult.raises ExcClass.valueError
          "Invalid XML response: syntax error: line 1, column 0"
    ∧ ¬ ("RAWBODY".data <:+: "Invalid XML response: syntax error: line 1, column 0".data)
    ∧ parse_flex_response (XmlBody.unparseable "RAWBODY" "syntax error: line 1, column 0")
        = parse_flex_response (XmlBody.unparseable "OTHERBODY" "syntax error: line 1, column 0")
    ∧ "RAWBODY" ≠ "OTHERBODY" := by
  refine ⟨rfl, by decide, rfl, by decide⟩

/-- C6 amended: an unparseable body makes the decoder raise a
`ValueError` whose message wraps the parser's error detail (not the raw
body), and on no input does the parser's own `ParseError` class escape
the decoder. -/
theorem parse_unparseable_raises_wrapped_detail (raw err : String) :
    parse_flex_response (XmlBody.unparseable raw err)
      = PyResult.raises ExcClass.valueError ("Invalid XML response: " ++ err)
    ∧ ∀ body m, parse_flex_response body ≠ PyResult.raises ExcClass.parseError m := by
  refine ⟨rfl, ?_⟩
  intro body m h
  cases body with
  | unparseable r e => simp [parse_flex_response] at h
  | wellFormed children => exact classifyScan_ne_parseError _ m h

/-- C10 witness: a document holding only a `ReferenceCode` element is
rejected with status text `None`. -/
theorem parse_missing_status_is_rejection_witness :
    parse_flex_response (XmlBody.wellFormed [⟨"ReferenceCode", some "ABC123"⟩])
      = PyResult.raises ExcClass.runtimeError "Flex request failed with status: None" :=
  (parse_missing_status_is_rejection [⟨"ReferenceCode", some "ABC123"⟩]
    (Or.inl (by decide))).1


/-- C2 counterexample: the valid calendar date year 5, January 2 breaks
byte-identity of the two supported date forms: the date object renders
through the unpadded `%Y` to `50102`, while its `YYYY-MM-DD` string
`0005-01-02` has its dashes stripped to `00050102`, so the two encoded
`StartDate` parameters differ. -/
theorem send_date_object_ne_iso_string_below_1000 :
    ValidDate ⟨5, 1, 2⟩
    ∧ isoDateString ⟨5, 1, 2⟩ = "0005-01-02"
    ∧ send_params demoConfig (DateArg.date ⟨5, 1, 2⟩) DateArg.none
        ≠ send_params demoConfig (DateArg.str "0005-01-02") DateArg.none
    ∧ (send_params demoConfig (DateArg.date ⟨5, 1, 2⟩) DateArg.none).StartDate = some "50102"
    ∧ (send_params demoConfig (DateArg.str "0005-01-02") DateArg.none).StartDate
        = some "00050102" := by
  refine ⟨by decide, by decide, by decide, by decide, by decide⟩

/-- C2 amended: for a valid calendar date whose year has four digits
(1000 to 9999), passing the date object and passing its `YYYY-MM-DD`
string to `send_flex_request` build byte-identical request parameters,
in the start as well as the end position: both normalise to the compact
`YYYYMMDD` form. Below year 1000 the unpadded `%Y` rendering of the
date object diverges from the dash-stripped zero-padded string form. -/
theorem send_date_object_eq_iso_string
    (config : Config) (d : PyDate) (hv : ValidDate d) (hy : 1000 ≤ d.year) :
    (∀ e, send_params config (DateArg.date d) e
            = send_params config (DateArg.str (isoDateString d)) e)
    ∧ (∀ s, send_params config s (DateArg.date d)
            = send_params config s (DateArg.str (isoDateString d))) := by
  have hkey : dateParam (DateArg.date d) = dateParam (DateArg.str (isoDateString d)) := by
    simp only [dateParam]
    rw [if_neg (isoDateString_ne_empty d), removeDashes_iso d hy]
  exact ⟨fun e => by unfold send_params; rw [hkey],
         fun s => by unfold send_params; rw [hkey]⟩

/-- C2 witness: March 7, 2024 as a date object and as `2024-03-07`
produce the same parameters, both carrying `20240307`. -/
theorem send_date_object_eq_iso_string_witness :
    ValidDate ⟨2024, 3, 7⟩ ∧ 1000 ≤ (2024 : Nat) ∧
    send_params demoConfig (DateArg.date ⟨2024, 3, 7⟩) DateArg.none
      = send_params demoConfig (DateArg.str "2024-03-07") DateArg.none
    ∧ (send_params demoConfig (DateArg.date ⟨2024, 3, 7⟩) DateArg.none).StartDate
        = some "20240307" := by
  refine ⟨by decide, by decide, ?_, by decide⟩
  have h := (send_date_object_eq_iso_string demoConfig ⟨2024, 3, 7⟩
    (by decide) (by decide)).1 DateArg.none
  have hiso : isoDateString ⟨2024, 3, 7⟩ = "2024-03-07" := by decide
  rw [hiso] at h
  exact h

/-- C3 counterexample: the non-`YYYY-MM-DD` string `not-a-date` is not
passed through unmodified — its dashes are stripped, yielding
`notadate` as the `StartDate` value. -/
theorem send_nonIso_string_modified :
    (send_params demoConfig (DateArg.str "not-a-date") DateArg.none).StartDate
      = some "notadate"
    ∧ (send_params demoConfig (DateArg.str "not-a-date") DateArg.none).StartDate
        ≠ some "not-a-date" := by
  refine ⟨by decide, by decide⟩

/-- C3 amended: every non-empty date string, whatever its shape, has all
dash characters removed and is otherwise passed through uninterpreted
and unvalidated as the `StartDate`/`EndDate` value; in particular a
string containing no dash is passed through unchanged. -/
theorem send_string_dashes_stripped
    (config : Config) (s : String) (e : DateArg) (hs : s ≠ "") :
    (send_params config (DateArg.str s) e).StartDate = some (removeDashes s)
    ∧ (send_params config e (DateArg.str s)).EndDate = some (removeDashes s)
    ∧ ((∀ c ∈ s.data, c ≠ '-') → removeDashes s = s) := by
  refine ⟨by simp [send_params, dateParam, hs], by simp [send_params, dateParam, hs], ?_⟩
  intro h
  unfold removeDashes
  rw [List.filter_eq_self.mpr (fun a ha => by simpa using h a ha)]

/-- C3 amended witness: the dash-free string `20240101` is passed
through unchanged. -/
theorem send_string_dashes_stripped_witness :
    "20240101" ≠ "" ∧
    (send_params demoConfig (DateArg.str "20240101") DateArg.none).StartDate
      = some "20240101" := by
  refine ⟨by decide, ?_⟩
  have h := (send_string_dashes_stripped demoConfig "20240101" DateArg.none (by decide)).1
  rw [h]
  decide

/-- C7: with both dates absent the outgoing request carries exactly the
credential token as `t`, the query identifier as `q` and the protocol
version as `v`, and both date keys are omitted. -/
theorem send_no_dates_omits_date_params (config : Config) :
    send_params config DateArg.none DateArg.none
      = { t := config.token, q := config.query_id, v := config.version,
          StartDate := Option.none, EndDate := Option.none } := rfl

/-- C9: an empty-string date argument falls to the truthiness guard and
is treated exactly like an absent date, in either position: the
corresponding key is omitted rather than sent empty. -/
theorem send_empty_string_like_none (config : Config) (other : DateArg) :
    send_params config (DateArg.str "") other = send_params config DateArg.none other
    ∧ send_params config other (DateArg.str "") = send_params config other DateArg.none :=
  ⟨rfl, rfl⟩

/-- C8: the download request carries the reference code in the `q`
slot, the credential token as `t` and the protocol version as `v`, with
no date keys; on any successful response the body bytes are returned
verbatim, with no content inspection — an empty body included. -/
theorem download_uses_token_slot_and_returns_body
    (http : ReqParams → HttpOutcome) (config : Config) (rc : String) (body : List Nat)
    (h : http (receive_params config rc) = HttpOutcome.success body) :
    download_flex_statement http config rc = Except.ok body
    ∧ (receive_params config rc).q = rc
    ∧ (receive_params config rc).t = config.token
    ∧ (receive_params config rc).v = config.version
    ∧ (receive_params config rc).StartDate = Option.none
    ∧ (receive_params config rc).EndDate = Option.none := by
  refine ⟨?_, rfl, rfl, rfl, rfl, rfl⟩
  unfold download_flex_statement
  rw [h]

/-- C8 witness: a service answering every request with an empty 2xx body
makes the download return the empty byte sequence as-is. -/
theorem download_uses_token_slot_and_returns_body_witness :
    (fun _ : ReqParams => HttpOutcome.success ([] : List Nat)) (receive_params demoConfig "ABC123")
      = HttpOutcome.success []
    ∧ download_flex_statement (fun _ => HttpOutcome.success []) demoConfig "ABC123"
        = Except.ok [] := by
  refine ⟨rfl, ?_⟩
  exact (download_uses_token_slot_and_returns_body
    (fun _ => HttpOutcome.success []) demoConfig "ABC123" [] rfl).1
